import Mathlib

/-!
Shallow embedding of `src/utils.js` of the DrexHD/discord-bot repository.

The module has one operation, `sendUpdateEmbed`, plus pure helpers
(`classIdToUrlString`, `releaseTypeToString`, `capitalize`,
`embedAuthorData`, `embedColorData`, `trimChangelog`,
`formatHtmlChangelog`).  External collaborators (the two upstream HTTP
clients, the JSON body decoder, the database models, the discord.js
message primitives, dayjs and the logger) are modelled as an explicit
environment record; the module's own logic is translated function by
function.  JavaScript strings are modelled as Lean `String`
(sequences of characters); JS numbers occurring as ids and codes are
`Nat`/`Int`.
-/

/-! ### JS string primitives used by the helpers -/

/-- JS line terminators: `.` in a JS regex (without the `s` flag) matches any
character except these. -/
def isLineTerm (c : Char) : Bool :=
  c = '\n' || c = '\r' || c = Char.ofNat 0x2028 || c = Char.ofNat 0x2029

/-- JS regex `\w` (no `u`-flag relevant here): `[A-Za-z0-9_]`. -/
def isWordChar (c : Char) : Bool :=
  ('a' ≤ c && c ≤ 'z') || ('A' ≤ c && c ≤ 'Z') || ('0' ≤ c && c ≤ '9') || c = '_'

/-- `.replace(/<br>/g, '\n')`: global left-to-right non-overlapping
replacement of the literal `<br>` by a newline. -/
def replaceBr : List Char → List Char
  | '<' :: 'b' :: 'r' :: '>' :: rest => '\n' :: replaceBr rest
  | c :: rest => c :: replaceBr rest
  | [] => []

/-- Lazy search for the end of a `<.*?>` match: starting right after a `<`,
scan for the first `>`; fail if a line terminator (which `.` cannot match)
or the end of input comes first.  Returns the remainder after the `>`. -/
def findTagEnd : List Char → Option (List Char)
  | [] => none
  | c :: rest =>
    if c = '>' then some rest
    else if isLineTerm c then none
    else findTagEnd rest

/-- `.replace(/<.*?>/g, '')`, fuelled so that the recursion is structural
(every step consumes at least one character, so `fuel = l.length` never runs
out): remove every lazy match of `<.*?>`.  The regex engine tries a match at
each position left to right; a match starts at a literal `<` and ends at the
first following `>` with no line terminator in between. -/
def stripTagsFuel : Nat → List Char → List Char
  | 0, l => l
  | _ + 1, [] => []
  | fuel + 1, c :: rest =>
    if c = '<' then
      match findTagEnd rest with
      | some rest2 => stripTagsFuel fuel rest2
      | none => c :: stripTagsFuel fuel rest
    else c :: stripTagsFuel fuel rest

def stripTags (l : List Char) : List Char := stripTagsFuel l.length l

/-- Lazy search for the end of a `&\w*?;` match: starting right after a `&`,
scan forward over `\w` characters; succeed at the first `;`, fail at the
first character that is neither `\w` nor `;` (or at end of input). -/
def findEntityEnd : List Char → Option (List Char)
  | [] => none
  | c :: rest =>
    if c = ';' then some rest
    else if isWordChar c then findEntityEnd rest
    else none

/-- `.replace(/&\w*?;/g, '')`, fuelled the same way: remove every lazy match
of `&\w*?;`.  A match starts at a literal `&` and spans the shortest run of
`\w` characters ending at a `;`. -/
def stripEntitiesFuel : Nat → List Char → List Char
  | 0, l => l
  | _ + 1, [] => []
  | fuel + 1, c :: rest =>
    if c = '&' then
      match findEntityEnd rest with
      | some rest2 => stripEntitiesFuel fuel rest2
      | none => c :: stripEntitiesFuel fuel rest
    else c :: stripEntitiesFuel fuel rest

def stripEntities (l : List Char) : List Char := stripEntitiesFuel l.length l

/-- `String.prototype.slice(0, e)` with a possibly negative end index:
a negative `e` counts from the end of the string (clamped at 0). -/
def jsSliceEnd (s : String) (e : Int) : String :=
  let n : Int := s.length
  let e2 : Int := if e < 0 then max (n + e) 0 else min e n
  ⟨s.data.take e2.toNat⟩

/-- First-occurrence search: is `pat` a leading segment of `l`? -/
def leadsList : List Char → List Char → Bool
  | [], _ => true
  | _ :: _, [] => false
  | p :: ps, x :: xs => p = x && leadsList ps xs

/-- `String.prototype.replace(pat, rep)` with a string pattern and a
replacement containing no `$`-substitution: replace the first occurrence of
`pat` (the empty pattern matches at position 0). -/
def replaceFirstAux (l : List Char) (pat rep : List Char) : List Char :=
  match l with
  | [] => if pat.isEmpty then rep else []
  | x :: xs =>
    if leadsList pat l then rep ++ l.drop pat.length
    else x :: replaceFirstAux xs pat rep

def jsReplaceFirst (s pat rep : String) : String :=
  ⟨replaceFirstAux s.data pat.data rep.data⟩

/-! ### The pure helpers of `utils.js` -/

/-- `classIdToUrlString(classId)` from `src/utils.js`. -/
def classIdToUrlString (classId : Int) : String :=
  if classId = 5 then "bukkit-plugins"
  else if classId = 6 then "mc-mods"
  else if classId = 12 then "texture-packs"
  else if classId = 17 then "worlds"
  else if classId = 4471 then "modpacks"
  else if classId = 4546 then "customization"
  else if classId = 4559 then "mc-addons"
  else "unknownClassIdValue"

/-- `releaseTypeToString(releaseType)` from `src/utils.js`. -/
def releaseTypeToString (releaseType : Int) : String :=
  if releaseType = 1 then "release"
  else if releaseType = 2 then "beta"
  else if releaseType = 3 then "alpha"
  else "unknownReleaseType"

/-- `capitalize(string)` from `src/utils.js`:
`string.replace(string.charAt(0), String.fromCharCode(string.charCodeAt(0) - 32))`.
For a non-empty string whose characters are non-surrogate BMP scalars,
`charCodeAt(0)` is the first character's code point and
`String.fromCharCode` applies `ToUint16` (reduction mod 2^16) to the
subtraction.  For the empty string, `charAt(0) = ""`,
`charCodeAt(0) = NaN`, `String.fromCharCode(NaN) = "\u0000"` (ToUint16 of
NaN is 0) and `"".replace("", x) = x`, so the result is `"\u0000"`. -/
def capitalize (s : String) : String :=
  match s.data with
  | [] => String.singleton (Char.ofNat 0)
  | c :: _ =>
    jsReplaceFirst s (String.singleton c)
      (String.singleton (Char.ofNat ((c.toNat + 65536 - 32) % 65536)))

/-- `formatHtmlChangelog(changelog)` from `src/utils.js`: the three chained
global regex replacements. -/
def formatHtmlChangelog (changelog : String) : String :=
  ⟨stripEntities (stripTags (replaceBr changelog.data))⟩

/-- `trimChangelog(changelog, maxLength)` from `src/utils.js`. -/
def trimChangelog (changelog : String) (maxLength : Int) : String :=
  let formattedChangelog := formatHtmlChangelog changelog
  if (formattedChangelog.length : Int) > maxLength then
    jsSliceEnd formattedChangelog (maxLength - 3) ++ "..."
  else formattedChangelog

/-- Author block data for an embed: `embedAuthorData(platform)` from
`src/utils.js`.  The default branch omits `iconURL` and `url`. -/
structure AuthorData where
  name : String
  iconURL : Option String
  url : Option String
  deriving Repr, DecidableEq

def embedAuthorData (platform : String) : AuthorData :=
  if platform = "curseforge" then
    { name := "From curseforge.com"
      iconURL := some "https://i.imgur.com/uA9lFcz.png"
      url := some "https://curseforge.com" }
  else if platform = "modrinth" then
    { name := "From modrinth.com"
      iconURL := some "https://i.imgur.com/2XDguyk.png"
      url := some "https://modrinth.com" }
  else
    { name := "From unknown source", iconURL := none, url := none }

/-- `embedColorData(platform)` from `src/utils.js`. -/
def embedColorData (platform : String) : String :=
  if platform = "curseforge" then "#f87a1b"
  else if platform = "modrinth" then "#1bd96a"
  else "DarkGreen"

/-! ### Data model: upstream payloads, database rows, client cache -/

/-- An upstream HTTP response; a timed-out call is modelled as `none` at the
call site (the JS clients resolve to `null` on timeout). -/
structure Response where
  statusCode : Int
  body : String

structure CFLogo where
  url : String

/-- One element of the CurseForge project's `latestFiles` array (the fields
`sendUpdateEmbed` reads). -/
structure CFFile where
  id : Nat
  fileDate : String
  displayName : String
  fileName : String
  releaseType : Int

/-- One element of the CurseForge project's `latestFilesIndexes` array. -/
structure CFFileIndex where
  fileId : Nat

/-- The CurseForge project payload fields read by `sendUpdateEmbed`. -/
structure CFProject where
  id : Nat
  latestFiles : List CFFile
  latestFilesIndexes : List CFFileIndex
  logo : CFLogo
  classId : Int
  slug : String

/-- Parsed body of the CurseForge changelog response: `rawData.data`. -/
structure CFChangelogBody where
  data : String

/-- One element of the Modrinth version-list response. -/
structure MRVersion where
  changelog : String
  date_published : String
  name : String
  version_number : String
  version_type : String

/-- The Modrinth project payload fields read by `sendUpdateEmbed`. -/
structure MRProject where
  id : String
  icon_url : String
  project_type : String
  slug : String

/-- `requestedProject`: its dynamic shape depends on the platform branch. -/
inductive RequestedProject where
  | cf (p : CFProject)
  | mr (p : MRProject)

/-- `dbProject`: the tracked project's database record. -/
structure DbProject where
  platform : String
  id : Nat
  name : String

/-- One row of `TrackedProjects`. -/
structure TrackedProjectRow where
  projectId : Nat
  guildId : Nat
  channelId : Nat

/-- One row of `Guilds` (`notificationStyle`, `changelogMaxLength`). -/
structure GuildSettings where
  notificationStyle : String
  changelogMaxLength : Int

structure Channel where
  id : Nat

/-- A guild in the client cache, with its channel cache. -/
structure Guild where
  id : Nat
  channels : Nat → Option Channel

/-- The discord client: its guild cache. -/
structure Client where
  guilds : Nat → Option Guild

/-- External collaborators of `sendUpdateEmbed`, per the module's imports:
the two upstream API clients (`none` = timeout), `getJSONResponse` (one
decoder per body shape), the database models, and the dayjs / discord.js
formatting primitives used inside the embeds. `findGuildSettings` models
`Guilds.findByPk`, assumed present once a tracked row exists (the code has
no null-guard). -/
structure Env where
  getModFileChangelog : Nat → Nat → Option Response
  listProjectVersions : String → Option Response
  parseCFBody : String → CFChangelogBody
  parseMRBody : String → List MRVersion
  findTracked : Nat → List TrackedProjectRow
  findGuildSettings : Nat → GuildSettings
  formatDate : String → String
  unixTime : String → Int
  codeBlock : String → String

/-- The normalized version record assembled by the resolver stage. -/
structure VersionInfo where
  changelog : String
  date : String
  iconURL : String
  name : String
  number : String
  type : String
  url : String
  deriving Repr, DecidableEq

/-- The rendered outbound message, one constructor per notification style,
carrying the exact strings placed into the embed (and button). -/
inductive Message where
  | compact (color description footerText : String) (footerIcon : Option String)
      (title url : String)
  | full (author : AuthorData) (color description : String)
      (fields : List (String × String)) (thumbnail title buttonLabel buttonUrl : String)
  deriving DecidableEq

/-- A performed `channel.send`: the resolved channel and the message. -/
structure Sent where
  channelId : Nat
  message : Message
  deriving DecidableEq

/-- Outcome of the resolver stage: a `VersionInfo`, an early return with a
logged warning, or a runtime fault (e.g. reading a field of `undefined`). -/
inductive ResolveResult where
  | ok (v : VersionInfo)
  | warn (msg : String)
  | fault
  deriving DecidableEq

/-- Observable outcome of one `sendUpdateEmbed` invocation: how many
upstream resolver calls were made, how many `TrackedProjects.findAll`
lookups ran, the warnings logged, the sends performed, and whether a
runtime exception escaped. -/
structure SendOutcome where
  resolverCalls : Nat
  trackedLookups : Nat
  warnings : List String
  sends : List Sent
  faulted : Bool

/-! ### The operation `sendUpdateEmbed` -/

/-- The `versionData` object literal of the `'curseforge'` branch. -/
def cfVersionData (p : CFProject) (rawData : CFChangelogBody)
    (lastFile : CFFile) (firstIndex : CFFileIndex) : VersionInfo :=
  { changelog := rawData.data
    date := lastFile.fileDate
    iconURL := p.logo.url
    name := lastFile.displayName
    number := lastFile.fileName
    type := capitalize (releaseTypeToString lastFile.releaseType)
    url := "https://www.curseforge.com/minecraft/" ++ classIdToUrlString p.classId
      ++ "/" ++ p.slug ++ "/files/" ++ toString firstIndex.fileId }

/-- The `versionData` object literal of the `'modrinth'` branch. -/
def mrVersionData (p : MRProject) (v0 : MRVersion) : VersionInfo :=
  { changelog := v0.changelog
    date := v0.date_published
    iconURL := p.icon_url
    name := v0.name
    number := v0.version_number
    type := capitalize v0.version_type
    url := "https://modrinth.com/" ++ p.project_type ++ "/" ++ p.slug
      ++ "/version/" ++ v0.version_number }

/-- The resolver stage of `sendUpdateEmbed` (the `switch` on
`dbProject.platform`), together with the number of upstream API calls it
makes.  `latestFiles[latestFiles.length - 1]` on an empty array and
`rawData[0]` on an empty list are `undefined`, whose field access throws:
modelled as `fault`.  A platform/payload shape mismatch likewise faults. -/
def resolveVersion (env : Env) (requestedProject : RequestedProject)
    (platform : String) : ResolveResult × Nat :=
  if platform = "curseforge" then
    match requestedProject with
    | .mr _ => (.fault, 0)
    | .cf p =>
      match p.latestFiles.getLast? with
      | none => (.fault, 0)
      | some lastFile =>
        match env.getModFileChangelog p.id lastFile.id with
        | none =>
          (.warn "A request to CurseForge timed out while getting a project file's changelog", 1)
        | some response =>
          if response.statusCode ≠ 200 then
            (.warn ("Unexpected " ++ toString response.statusCode
              ++ " status code while getting a project files's changelog."), 1)
          else
            match p.latestFilesIndexes.head? with
            | none => (.fault, 1)
            | some firstIndex =>
              (.ok (cfVersionData p (env.parseCFBody response.body) lastFile firstIndex), 1)
  else if platform = "modrinth" then
    match requestedProject with
    | .cf _ => (.fault, 0)
    | .mr p =>
      match env.listProjectVersions p.id with
      | none =>
        (.warn "A request to Modrinth timed out while getting a project's version information", 1)
      | some response =>
        if response.statusCode ≠ 200 then
          (.warn ("Unexpected " ++ toString response.statusCode
            ++ " status code while getting a project's version information."), 1)
        else
          match (env.parseMRBody response.body).head? with
          | none => (.fault, 1)
          | some v0 => (.ok (mrVersionData p v0), 1)
  else
    (.warn "Update notification functionality has not been implemented for this platform yet.", 0)

/-- The body of the destination loop's `switch (guildSettings.notificationStyle)`:
the embed (and button) built for one destination. -/
def renderMessage (env : Env) (dbProject : DbProject) (guildSettings : GuildSettings)
    (versionData : VersionInfo) : Message :=
  if guildSettings.notificationStyle = "compact" then
    .compact (embedColorData dbProject.platform)
      (versionData.number ++ " (" ++ versionData.type ++ ")")
      (env.formatDate versionData.date)
      (embedAuthorData dbProject.platform).iconURL
      (dbProject.name ++ " " ++ versionData.name)
      versionData.url
  else
    .full (embedAuthorData dbProject.platform)
      (embedColorData dbProject.platform)
      ("**Changelog**: "
        ++ env.codeBlock (trimChangelog versionData.changelog guildSettings.changelogMaxLength))
      [("Version Name", versionData.name),
       ("Version Number", versionData.number),
       ("Release Type", versionData.type),
       ("Date Published", "<t:" ++ toString (env.unixTime versionData.date) ++ ":f>")]
      versionData.iconURL
      (dbProject.name ++ " has been updated")
      ("View on " ++ capitalize dbProject.platform)
      versionData.url

/-- One iteration of the destination loop: resolve guild and channel from
the cache (warn and skip on a miss), fetch the guild settings, build and
send the message. -/
def processRow (env : Env) (client : Client) (dbProject : DbProject)
    (versionData : VersionInfo) (t : TrackedProjectRow) : List String × Option Sent :=
  match client.guilds t.guildId with
  | none =>
    (["Could not find guild with ID " ++ toString t.guildId
      ++ " in cache. Update notification not sent."], none)
  | some guild =>
    match guild.channels t.channelId with
    | none =>
      (["Could not find channel with ID " ++ toString t.channelId
        ++ " in cache. Update notification not sent."], none)
    | some channel =>
      ([], some ⟨channel.id,
        renderMessage env dbProject (env.findGuildSettings t.guildId) versionData⟩)

/-- The destination loop (`for (const trackedProject of trackedProjects)`):
warnings and sends accumulated in row order. -/
def processDestinations (env : Env) (client : Client) (dbProject : DbProject)
    (versionData : VersionInfo) : List TrackedProjectRow → List String × List Sent
  | [] => ([], [])
  | t :: rest =>
    let r := processRow env client dbProject versionData t
    let rs := processDestinations env client dbProject versionData rest
    (r.1 ++ rs.1, match r.2 with | some m => m :: rs.2 | none => rs.2)

/-- `sendUpdateEmbed(requestedProject, dbProject, client)` from
`src/utils.js`: resolver stage, then (only on success) the
`TrackedProjects.findAll` subscriber lookup and the destination loop. -/
def sendUpdateEmbed (env : Env) (requestedProject : RequestedProject)
    (dbProject : DbProject) (client : Client) : SendOutcome :=
  match resolveVersion env requestedProject dbProject.platform with
  | (.warn w, calls) => ⟨calls, 0, [w], [], false⟩
  | (.fault, calls) => ⟨calls, 0, [], [], true⟩
  | (.ok versionData, calls) =>
    let pr := processDestinations env client dbProject versionData
      (env.findTracked dbProject.id)
    ⟨calls, 1, pr.1, pr.2, false⟩

/-! ### Spec-side restatement for the truncation rule (refinement target) -/

/-- The truncation rule as the spec words it: "if the HTML-stripped text
exceeds `maxLength` characters, cut to `maxLength - 3` characters and append
`\"...\"`; otherwise return unchanged", reading "the first `maxLength - 3`
characters" as a prefix of that (non-negative) length.  To be compared with
`trimChangelog`, which is translated from the source. -/
def truncateSpec (text : String) (maxLength : Int) : String :=
  let f := formatHtmlChangelog text
  if (f.length : Int) ≤ maxLength then f
  else ⟨f.data.take (maxLength - 3).toNat⟩ ++ "..."

/-! ### Concrete sample data (used by the witnesses) -/

def sampleCFFile : CFFile :=
  { id := 77, fileDate := "2024-01-05T10:00:00Z", displayName := "My Mod 1.1.0"
    fileName := "my-mod-1.1.0.jar", releaseType := 1 }

def sampleCFProject : CFProject :=
  { id := 10
    latestFiles := [{ id := 5, fileDate := "2023-12-01T08:00:00Z", displayName := "My Mod 1.0.0",
                      fileName := "my-mod-1.0.0.jar", releaseType := 2 }, sampleCFFile]
    latestFilesIndexes := [{ fileId := 900 }, { fileId := 901 }]
    logo := { url := "https://media.example/logo.png" }
    classId := 6
    slug := "my-mod" }

def sampleResponse : Response := { statusCode := 200, body := "cfbody" }

def sampleBadResponse : Response := { statusCode := 500, body := "err" }

def sampleDb : DbProject := { platform := "curseforge", id := 10, name := "My Mod" }

/-- A client cache holding guilds 1 and 2 (each with channel 100 cached) and
missing guild 3. -/
def sampleClient : Client :=
  { guilds := fun g =>
      if g = 3 then none
      else some { id := g, channels := fun c => if c = 100 then some { id := 100 } else none } }

def sampleEnv : Env :=
  { getModFileChangelog := fun pid fid =>
      if pid = 10 ∧ fid = 77 then some sampleResponse else none
    listProjectVersions := fun _ => some { statusCode := 200, body := "mrbody" }
    parseCFBody := fun _ => { data := "the changelog" }
    parseMRBody := fun _ =>
      [{ changelog := "mr changelog", date_published := "2024-02-02", name := "Version Two",
         version_number := "2.0.0", version_type := "release" }]
    findTracked := fun _ => [{ projectId := 10, guildId := 1, channelId := 100 },
                             { projectId := 10, guildId := 2, channelId := 100 }]
    findGuildSettings := fun g =>
      if g = 1 then { notificationStyle := "compact", changelogMaxLength := 100 }
      else { notificationStyle := "full", changelogMaxLength := 50 }
    formatDate := fun s => s
    unixTime := fun _ => 1704448800
    codeBlock := fun s => s }

/-- Same upstream collaborators, but the CurseForge changelog call answers
with a 500 status, and three destinations are tracked. -/
def sampleEnvBad : Env :=
  { sampleEnv with
    getModFileChangelog := fun _ _ => some sampleBadResponse
    findTracked := fun _ => [{ projectId := 10, guildId := 1, channelId := 100 },
                             { projectId := 10, guildId := 2, channelId := 100 },
                             { projectId := 10, guildId := 3, channelId := 100 }] }

/-- Same upstream collaborators, but the Modrinth version-list call times
out (`null`). -/
def sampleEnvTimeout : Env :=
  { sampleEnv with listProjectVersions := fun _ => none }

def sampleMRProject : MRProject :=
  { id := "AAbbCCdd", icon_url := "https://media.example/mr.png",
    project_type := "mod", slug := "my-mod" }

def sampleVersionInfo : VersionInfo :=
  cfVersionData sampleCFProject { data := "the changelog" } sampleCFFile { fileId := 900 }

/-! ### Helper lemmas -/

theorem jsSliceEnd_length (s : String) (e : Int) :
    (jsSliceEnd s e).length =
      (if e < 0 then max ((s.length : Int) + e) 0 else min e (s.length : Int)).toNat := by
  have hdata : s.data.length = s.length := rfl
  simp only [jsSliceEnd, String.length_mk, List.length_take]
  split <;> omega

theorem jsSliceEnd_nonneg_eq (s : String) (e : Int) (h0 : 0 ≤ e) (h1 : e ≤ (s.length : Int)) :
    jsSliceEnd s e = ⟨s.data.take e.toNat⟩ := by
  have hdata : s.data.length = s.length := rfl
  simp only [jsSliceEnd]
  rw [if_neg (by omega)]
  have : min e (s.length : Int) = e := by omega
  rw [this]

/-! ### Claim theorems -/

/-- C5 counterexample: the truncation claim quantifies over every
guild-configured `maxLength`, but at `maxLength = 2` the stripped text
`"abcd"` (4 characters, exceeding 2) is cut with slice end `2 - 3 = -1`,
which in JS counts from the end of the string: the code yields `"abc..."`,
not the claimed first `maxLength - 3` characters followed by `"..."`
(which would be `"..."`). -/
theorem trimChangelog_small_maxLength_cex :
    trimChangelog "abcd" 2 = "abc..." ∧ truncateSpec "abcd" 2 = "..." ∧
    trimChangelog "abcd" 2 ≠ truncateSpec "abcd" 2 := by decide

/-- C5 (amended): for every changelog text and every `maxLength ≥ 3`,
`trimChangelog` returns the HTML-stripped text unchanged when its length
does not exceed `maxLength`, and otherwise the first `maxLength - 3`
characters of the stripped text followed by `"..."` — i.e. it agrees with
the spec's truncation rule `truncateSpec`. -/
theorem trimChangelog_matches_spec_truncate (text : String) (maxLength : Int)
    (h : 3 ≤ maxLength) :
    trimChangelog text maxLength = truncateSpec text maxLength := by
  simp only [trimChangelog, truncateSpec]
  by_cases hc : ((formatHtmlChangelog text).length : Int) ≤ maxLength
  · rw [if_neg (by omega), if_pos hc]
  · rw [if_pos (by omega), if_neg hc]
    rw [jsSliceEnd_nonneg_eq _ _ (by omega) (by omega)]

/-- C5 witness: on a 20-character stripped string with `maxLength = 10` the
code agrees with the spec rule and the result is exactly 10 characters;
a 5-character string is returned unchanged. -/
theorem trimChangelog_matches_spec_truncate_witness :
    trimChangelog "aaaaaaaaaaaaaaaaaaaa" 10 = truncateSpec "aaaaaaaaaaaaaaaaaaaa" 10 ∧
    (trimChangelog "aaaaaaaaaaaaaaaaaaaa" 10).length = 10 ∧
    trimChangelog "aaaaaaaaaaaaaaaaaaaa" 10 = "aaaaaaa..." ∧
    trimChangelog "hello" 10 = "hello" :=
  ⟨trimChangelog_matches_spec_truncate "aaaaaaaaaaaaaaaaaaaa" 10 (by decide),
   by decide, by decide, by decide⟩

/-- C6 counterexample: `capitalize` subtracts 32 from the first character's
code unconditionally, so on a string already starting with an uppercase
letter it does not return the first character "converted to uppercase":
`capitalize("Modrinth")` is `"-odrinth"` (`'M'` is code 77, 77 − 32 = 45 is
`'-'`), not `"Modrinth"`. -/
theorem capitalize_first_uppercase_cex :
    capitalize "Modrinth" = "-odrinth" ∧ capitalize "Modrinth" ≠ "Modrinth" := by decide

/-- C6 (amended): for every non-empty string whose FIRST character is an
ASCII lowercase letter (code 97–122), `capitalize` returns the string with
its first character converted to uppercase and all remaining characters
unchanged; in particular `capitalize "modrinth" = "Modrinth"` (witness). -/
theorem capitalize_ascii_lowercase (c : Char) (cs : List Char)
    (h1 : 97 ≤ c.toNat) (h2 : c.toNat ≤ 122) :
    capitalize ⟨c :: cs⟩ = ⟨c.toUpper :: cs⟩ := by
  have hmod : (c.toNat + 65536 - 32) % 65536 = c.toNat - 32 := by omega
  have hup : c.toUpper = Char.ofNat (c.toNat - 32) := by
    simp [Char.toUpper, h1, h2]
  simp only [capitalize, jsReplaceFirst, String.singleton, replaceFirstAux, leadsList,
    hmod, hup]
  simp [List.drop_one]

/-- C6 witness: `capitalize("modrinth") = "Modrinth"`. -/
theorem capitalize_ascii_lowercase_witness : capitalize "modrinth" = "Modrinth" := by
  have h := capitalize_ascii_lowercase 'm' ['o', 'd', 'r', 'i', 'n', 't', 'h']
    (by decide) (by decide)
  simpa using h

/-- C7: `formatHtmlChangelog` replaces literal `<br>` tags with newlines,
removes other `<...>` tag-like substrings and removes `&...;` named
character references; on the spec's example it produces exactly
`"Fixed bug\nAdded feature  more bold"`. -/
theorem formatHtmlChangelog_strips_tags_and_entities :
    formatHtmlChangelog "Fixed bug<br>Added feature &amp; more <b>bold</b>" =
      "Fixed bug\nAdded feature  more bold" ∧
    formatHtmlChangelog "<br>" = "\n" ∧
    formatHtmlChangelog "<em>x</em>" = "x" ∧
    formatHtmlChangelog "a &amp; b &nbsp;" = "a  b " := by decide

/-- C8: the category-code table: 5, 6, 12, 17, 4471, 4546, 4559 map to the
documented URL segments, and every other code maps to the literal fallback
marker `"unknownClassIdValue"`. -/
theorem classIdToUrlString_table :
    classIdToUrlString 5 = "bukkit-plugins" ∧
    classIdToUrlString 6 = "mc-mods" ∧
    classIdToUrlString 12 = "texture-packs" ∧
    classIdToUrlString 17 = "worlds" ∧
    classIdToUrlString 4471 = "modpacks" ∧
    classIdToUrlString 4546 = "customization" ∧
    classIdToUrlString 4559 = "mc-addons" ∧
    ∀ c : Int, c ≠ 5 → c ≠ 6 → c ≠ 12 → c ≠ 17 → c ≠ 4471 → c ≠ 4546 → c ≠ 4559 →
      classIdToUrlString c = "unknownClassIdValue" := by
  refine ⟨by decide, by decide, by decide, by decide, by decide, by decide, by decide, ?_⟩
  intro c h5 h6 h12 h17 h4471 h4546 h4559
  simp [classIdToUrlString, h5, h6, h12, h17, h4471, h4546, h4559]

/-- C8 witness: an unlisted code maps to the fallback marker. -/
theorem classIdToUrlString_table_witness :
    classIdToUrlString 999 = "unknownClassIdValue" :=
  classIdToUrlString_table.2.2.2.2.2.2.2 999 (by decide) (by decide) (by decide)
    (by decide) (by decide) (by decide) (by decide)

/-- C9: `capitalize` applied to the empty string terminates and returns a
value rather than faulting: `"".charAt(0)` is `""`, `"".charCodeAt(0)` is
`NaN`, `String.fromCharCode(NaN)` is `"\u0000"` and `"".replace("", x)`
is `x`, so the JS call returns the one-character string `"\u0000"`. -/
theorem capitalize_empty_no_fault :
    capitalize "" = String.singleton (Char.ofNat 0) := rfl

/-- C10 counterexample: with `maxLength = 2` a 3-character stripped string
yields 5 = n + 2 characters (slice end `-1` keeps n − 1 characters, then
`"..."` adds 3), not the claimed n + 1. -/
theorem trimChangelog_maxLength_two_growth_cex :
    (formatHtmlChangelog "abc").length = 3 ∧
    (trimChangelog "abc" 2).length = 5 ∧ (5 : Nat) ≠ 3 + 1 := by decide

/-- C10 (amended): for every string whose HTML-stripped length exceeds
`maxLength`, if `maxLength < 3` then `trimChangelog` returns a string
strictly longer than `maxLength` (the slice end `maxLength - 3` is negative
and counts from the end), and with `maxLength = 2` an n-character stripped
string yields n + 2 characters; the exact-`maxLength` output-length
guarantee holds only for `maxLength ≥ 3`. -/
theorem trimChangelog_small_maxLength_growth (text : String) (maxLength : Int)
    (h1 : maxLength < 3) (h2 : maxLength < ((formatHtmlChangelog text).length : Int)) :
    maxLength < ((trimChangelog text maxLength).length : Int) ∧
    (maxLength = 2 → (trimChangelog text maxLength).length = (formatHtmlChangelog text).length + 2) := by
  simp only [trimChangelog]
  rw [if_pos (by omega)]
  rw [String.length_append, jsSliceEnd_length]
  have hd : ("..." : String).length = 3 := by decide
  rw [hd]
  constructor
  · split <;> omega
  · intro he; split <;> omega

/-- C10 witness: a concrete 5-character stripped string with
`maxLength = 2` yields 7 characters, strictly more than 2. -/
theorem trimChangelog_small_maxLength_growth_witness :
    (2 : Int) < ((trimChangelog "abcde" 2).length : Int) ∧
    ((2 : Int) = 2 → (trimChangelog "abcde" 2).length = (formatHtmlChangelog "abcde").length + 2) :=
  trimChangelog_small_maxLength_growth "abcde" 2 (by decide) (by decide)

theorem resolveVersion_ok_calls (env : Env) (req : RequestedProject) (platform : String)
    (v : VersionInfo) (calls : Nat)
    (h : resolveVersion env req platform = (.ok v, calls)) : calls = 1 := by
  unfold resolveVersion at h
  repeat' split at h
  all_goals simp_all

theorem processRow_sent_message (env : Env) (client : Client) (db : DbProject)
    (v : VersionInfo) (t : TrackedProjectRow) (m : Sent)
    (h : (processRow env client db v t).2 = some m) :
    m.message = renderMessage env db (env.findGuildSettings t.guildId) v := by
  unfold processRow at h
  repeat' split at h
  all_goals try (cases h; rfl)
  all_goals simp at h

theorem processDestinations_append (env : Env) (client : Client) (db : DbProject)
    (v : VersionInfo) (a b : List TrackedProjectRow) :
    processDestinations env client db v (a ++ b) =
      ((processDestinations env client db v a).1 ++ (processDestinations env client db v b).1,
       (processDestinations env client db v a).2 ++ (processDestinations env client db v b).2) := by
  induction a with
  | nil => simp [processDestinations]
  | cons t rest ih =>
    simp only [List.cons_append, processDestinations, ih]
    cases hr : (processRow env client db v t).2 <;> simp [hr, ih, List.append_assoc]

theorem mem_processDestinations_sends (env : Env) (client : Client) (db : DbProject)
    (v : VersionInfo) :
    ∀ (rows : List TrackedProjectRow) (m : Sent),
      m ∈ (processDestinations env client db v rows).2 →
      ∃ t ∈ rows, m.message = renderMessage env db (env.findGuildSettings t.guildId) v := by
  intro rows
  induction rows with
  | nil => intro m hm; simp [processDestinations] at hm
  | cons t rest ih =>
    intro m hm
    simp only [processDestinations] at hm
    cases hr : (processRow env client db v t).2 with
    | none =>
      rw [hr] at hm
      obtain ⟨u, hu, he⟩ := ih m hm
      exact ⟨u, List.mem_cons_of_mem _ hu, he⟩
    | some m0 =>
      rw [hr] at hm
      rcases List.mem_cons.mp hm with h1 | h2
      · subst h1
        exact ⟨t, List.mem_cons_self _ _, processRow_sent_message env client db v t m hr⟩
      · obtain ⟨u, hu, he⟩ := ih m h2
        exact ⟨u, List.mem_cons_of_mem _ hu, he⟩

/-- C1: on a successful resolution (supported platform, upstream response
present with status 200), `sendUpdateEmbed` makes exactly one upstream
resolver call, the destination loop runs on the single `VersionInfo`
computed before it, and every message sent — whatever its style and
destination — is rendered from that same unchanged `VersionInfo`; the
resolver is never re-invoked per destination. -/
theorem sendUpdateEmbed_single_versionInfo (env : Env) (req : RequestedProject)
    (db : DbProject) (client : Client) (v : VersionInfo) (calls : Nat)
    (h : resolveVersion env req db.platform = (.ok v, calls)) :
    (sendUpdateEmbed env req db client).resolverCalls = 1 ∧
    (sendUpdateEmbed env req db client).sends =
      (processDestinations env client db v (env.findTracked db.id)).2 ∧
    ∀ m ∈ (sendUpdateEmbed env req db client).sends,
      ∃ t ∈ env.findTracked db.id,
        m.message = renderMessage env db (env.findGuildSettings t.guildId) v := by
  have hc : calls = 1 := resolveVersion_ok_calls env req db.platform v calls h
  subst hc
  have e : sendUpdateEmbed env req db client =
      ⟨1, 1, (processDestinations env client db v (env.findTracked db.id)).1,
        (processDestinations env client db v (env.findTracked db.id)).2, false⟩ := by
    simp only [sendUpdateEmbed, h]
  rw [e]
  exact ⟨rfl, rfl, fun m hm => mem_processDestinations_sends env client db v _ m hm⟩

/-- C1 witness: a concrete environment with two tracked destinations (one
compact-styled, one full-styled): one resolver call, and both sent messages
are rendered from the single computed `VersionInfo`. -/
theorem sendUpdateEmbed_single_versionInfo_witness :
    (sendUpdateEmbed sampleEnv (.cf sampleCFProject) sampleDb sampleClient).resolverCalls = 1 ∧
    (sendUpdateEmbed sampleEnv (.cf sampleCFProject) sampleDb sampleClient).sends =
      (processDestinations sampleEnv sampleClient sampleDb sampleVersionInfo
        (sampleEnv.findTracked sampleDb.id)).2 ∧
    ∀ m ∈ (sendUpdateEmbed sampleEnv (.cf sampleCFProject) sampleDb sampleClient).sends,
      ∃ t ∈ sampleEnv.findTracked sampleDb.id,
        m.message = renderMessage sampleEnv sampleDb
          (sampleEnv.findGuildSettings t.guildId) sampleVersionInfo :=
  sendUpdateEmbed_single_versionInfo sampleEnv (.cf sampleCFProject) sampleDb sampleClient
    sampleVersionInfo 1 rfl

/-- C2: for both platform branches, an upstream timeout (`null` response)
or a non-200 status makes `sendUpdateEmbed` log exactly one warning and
return before the subscriber lookup: zero messages are sent, the
`TrackedProjects` query never runs, and no exception propagates — whatever
destinations are tracked. -/
theorem sendUpdateEmbed_upstream_failure_aborts (env : Env) (client : Client) (db : DbProject) :
    (∀ (p : CFProject) (f : CFFile), db.platform = "curseforge" →
      p.latestFiles.getLast? = some f →
      (env.getModFileChangelog p.id f.id = none ∨
        ∃ r, env.getModFileChangelog p.id f.id = some r ∧ r.statusCode ≠ 200) →
      (sendUpdateEmbed env (.cf p) db client).warnings.length = 1 ∧
      (sendUpdateEmbed env (.cf p) db client).sends = [] ∧
      (sendUpdateEmbed env (.cf p) db client).trackedLookups = 0 ∧
      (sendUpdateEmbed env (.cf p) db client).faulted = false) ∧
    (∀ q : MRProject, db.platform = "modrinth" →
      (env.listProjectVersions q.id = none ∨
        ∃ r, env.listProjectVersions q.id = some r ∧ r.statusCode ≠ 200) →
      (sendUpdateEmbed env (.mr q) db client).warnings.length = 1 ∧
      (sendUpdateEmbed env (.mr q) db client).sends = [] ∧
      (sendUpdateEmbed env (.mr q) db client).trackedLookups = 0 ∧
      (sendUpdateEmbed env (.mr q) db client).faulted = false) := by
  constructor
  · intro p f hpl hlast hbad
    rcases hbad with hto | ⟨r, hr, hne⟩
    · simp [sendUpdateEmbed, resolveVersion, hpl, hlast, hto]
    · simp [sendUpdateEmbed, resolveVersion, hpl, hlast, hr, hne]
  · intro q hpl hbad
    rcases hbad with hto | ⟨r, hr, hne⟩
    · simp [sendUpdateEmbed, resolveVersion, hpl, hto]
    · simp [sendUpdateEmbed, resolveVersion, hpl, hr, hne]

/-- C2 witness: a 500 response from CurseForge with three tracked
destinations: one warning, zero sends, no subscriber lookup, no fault. -/
theorem sendUpdateEmbed_upstream_failure_aborts_witness :
    (sendUpdateEmbed sampleEnvBad (.cf sampleCFProject) sampleDb sampleClient).warnings.length = 1 ∧
    (sendUpdateEmbed sampleEnvBad (.cf sampleCFProject) sampleDb sampleClient).sends = [] ∧
    (sendUpdateEmbed sampleEnvBad (.cf sampleCFProject) sampleDb sampleClient).trackedLookups = 0 ∧
    (sendUpdateEmbed sampleEnvBad (.cf sampleCFProject) sampleDb sampleClient).faulted = false :=
  (sendUpdateEmbed_upstream_failure_aborts sampleEnvBad sampleClient sampleDb).1
    sampleCFProject sampleCFFile rfl rfl (Or.inr ⟨sampleBadResponse, rfl, by decide⟩)

/-- C3: in the `'curseforge'` branch with a successful changelog lookup,
the `VersionInfo` is assembled with changelog = the parsed response field
`data`; date, name, number and type from the LAST element of `latestFiles`
(type mapped 1→release, 2→beta, 3→alpha, other→unknown marker, then
capitalized); icon = the project logo URL; and url composed from the
category-code lookup, the slug, and the `fileId` of the FIRST element of
`latestFilesIndexes`. -/
theorem resolveVersion_curseforge_fields (env : Env) (p : CFProject) (f : CFFile)
    (i : CFFileIndex) (r : Response)
    (h1 : p.latestFiles.getLast? = some f)
    (h2 : env.getModFileChangelog p.id f.id = some r)
    (h3 : r.statusCode = 200)
    (h4 : p.latestFilesIndexes.head? = some i) :
    resolveVersion env (.cf p) "curseforge" =
      (.ok { changelog := (env.parseCFBody r.body).data
             date := f.fileDate
             iconURL := p.logo.url
             name := f.displayName
             number := f.fileName
             type := capitalize (releaseTypeToString f.releaseType)
             url := "https://www.curseforge.com/minecraft/" ++ classIdToUrlString p.classId
               ++ "/" ++ p.slug ++ "/files/" ++ toString i.fileId }, 1) ∧
    capitalize (releaseTypeToString 1) = "Release" ∧
    capitalize (releaseTypeToString 2) = "Beta" ∧
    capitalize (releaseTypeToString 3) = "Alpha" ∧
    (∀ n : Int, n ≠ 1 → n ≠ 2 → n ≠ 3 →
      capitalize (releaseTypeToString n) = "UnknownReleaseType") := by
  refine ⟨?_, by decide, by decide, by decide, ?_⟩
  · simp [resolveVersion, h1, h2, h3, h4, cfVersionData]
  · intro n hn1 hn2 hn3
    rw [show releaseTypeToString n = "unknownReleaseType" by
      simp [releaseTypeToString, hn1, hn2, hn3]]
    decide

/-- C3 witness: the sample CurseForge project: changelog from the parsed
body, file fields from the last `latestFiles` element, url from class id 6
(`mc-mods`), the slug, and the first `latestFilesIndexes` entry (900, not
the last file's id 77). -/
theorem resolveVersion_curseforge_fields_witness :
    resolveVersion sampleEnv (.cf sampleCFProject) "curseforge" =
      (.ok { changelog := "the changelog"
             date := "2024-01-05T10:00:00Z"
             iconURL := "https://media.example/logo.png"
             name := "My Mod 1.1.0"
             number := "my-mod-1.1.0.jar"
             type := "Release"
             url := "https://www.curseforge.com/minecraft/mc-mods/my-mod/files/900" }, 1) :=
  (resolveVersion_curseforge_fields sampleEnv sampleCFProject sampleCFFile ⟨900⟩
    sampleResponse rfl rfl rfl rfl).1

/-- C4: within one invocation's destination loop, a tracked row whose guild
(or channel) is missing from the client cache contributes exactly one
warning and no send, and every other row — before or after it — is
processed exactly as it would have been on its own: the loop continues. -/
theorem destination_loop_skips_missing (env : Env) (client : Client) (db : DbProject)
    (v : VersionInfo) (pre post : List TrackedProjectRow) (bad : TrackedProjectRow)
    (h : client.guilds bad.guildId = none ∨
      ∃ g, client.guilds bad.guildId = some g ∧ g.channels bad.channelId = none) :
    ∃ w, processDestinations env client db v (pre ++ bad :: post) =
      ((processDestinations env client db v pre).1 ++ w ::
        (processDestinations env client db v post).1,
       (processDestinations env client db v pre).2 ++
        (processDestinations env client db v post).2) := by
  have hrow : ∃ w, processRow env client db v bad = ([w], none) := by
    rcases h with hg | ⟨g, hg, hc⟩
    · exact ⟨"Could not find guild with ID " ++ toString bad.guildId
        ++ " in cache. Update notification not sent.", by simp [processRow, hg]⟩
    · exact ⟨"Could not find channel with ID " ++ toString bad.channelId
        ++ " in cache. Update notification not sent.", by simp [processRow, hg, hc]⟩
  obtain ⟨w, hw⟩ := hrow
  refine ⟨w, ?_⟩
  rw [processDestinations_append]
  simp only [processDestinations, hw, List.singleton_append]

/-- C4 witness: three tracked rows where the middle row's guild (id 3) is
not in the cache: one warning for it, no send for it, and the first and
third rows processed as usual. -/
theorem destination_loop_skips_missing_witness :
    ∃ w, processDestinations sampleEnv sampleClient sampleDb sampleVersionInfo
        ([⟨10, 1, 100⟩] ++ ⟨10, 3, 100⟩ :: [⟨10, 2, 100⟩]) =
      ((processDestinations sampleEnv sampleClient sampleDb sampleVersionInfo [⟨10, 1, 100⟩]).1
          ++ w ::
        (processDestinations sampleEnv sampleClient sampleDb sampleVersionInfo [⟨10, 2, 100⟩]).1,
       (processDestinations sampleEnv sampleClient sampleDb sampleVersionInfo [⟨10, 1, 100⟩]).2 ++
        (processDestinations sampleEnv sampleClient sampleDb sampleVersionInfo [⟨10, 2, 100⟩]).2) :=
  destination_loop_skips_missing sampleEnv sampleClient sampleDb sampleVersionInfo
    [⟨10, 1, 100⟩] [⟨10, 2, 100⟩] ⟨10, 3, 100⟩ (Or.inl rfl)
